import Mathlib

/-!
Shallow embedding of the codestandoff-backend authentication and query
subsystem (Go sources), with theorems checking the natural-language
specification against it.

Modelling conventions:
* Go `time.Time` instants are integers (`Time := Int`, nanoseconds);
  a single logical clock value `now` stands for the (sub-microsecond
  spaced) `time.Now()` calls inside one operation.
* `uuid.UUID` values are modelled by their canonical 36-character string
  rendering, so `uid.String()` is the identity.
* The HS256 signature (external `golang-jwt` library code) is modelled as
  the pair of the secret and the signed claims: a deterministic,
  collision-free MAC, which is the property the code relies on.
* bcrypt (external library) is abstracted as a caller-supplied
  verification function; the SQL store is a pure in-memory structure and
  each `QueryRow ... WHERE col = $1` is `List.find?` on the rows.
-/

namespace CodeStandoff

/-- Instants, Go `time.Time`, as integer nanoseconds since epoch. -/
abbrev Time := Int

/-- Go `time.Hour` in nanoseconds. -/
def hourNs : Int := 3600 * 1000000000

/-- `7 * 24 * time.Hour`: the token validity used in `GenerateJWT` and
`GetTokenExpiry`. -/
def tokenValidity : Int := 7 * 24 * hourNs

/-- `auth.GetTokenExpiry` (internal/auth/token.go): `time.Now().Add(7*24*time.Hour)`. -/
def GetTokenExpiry (now : Time) : Time := now + tokenValidity

/-- `jwt.RegisteredClaims` fields set by `GenerateJWT`. -/
structure RegisteredClaims where
  expiresAt : Time
  issuedAt : Time
  notBefore : Time
  issuer : String
  subject : String
deriving Repr, DecidableEq

/-- `auth.Claims` (internal/middleware/response.go): custom UserID and Email
plus the registered claims. -/
structure Claims where
  userID : String
  email : String
  registered : RegisteredClaims
deriving Repr, DecidableEq

/-- The hardcoded signing secret `jwtSecret`. -/
def jwtSecret : String := "your-secret-key-change-in-production"

/-- HS256 MAC over the claims, modelled as the (secret, claims) pair:
deterministic and injective, which is what validation relies on. -/
def signHS256 (secret : String) (c : Claims) : String × Claims := (secret, c)

/-- A signed JWT: payload claims plus signature. -/
structure SignedToken where
  claims : Claims
  sig : String × Claims
deriving Repr, DecidableEq

/-- `auth.GenerateJWT` (internal/middleware/response.go lines 54-77):
claims with UserID = uid.String(), Email, ExpiresAt = now+7d, IssuedAt = now,
NotBefore = now, Issuer "codestandoff", Subject = uid.String(), signed with
HS256 under `jwtSecret`. `uid` is the canonical string of the uuid. -/
def GenerateJWT (uid : String) (email : String) (now : Time) : SignedToken :=
  let c : Claims :=
    { userID := uid
      email := email
      registered :=
        { expiresAt := now + tokenValidity
          issuedAt := now
          notBefore := now
          issuer := "codestandoff"
          subject := uid } }
  { claims := c, sig := signHS256 jwtSecret c }

/-- `auth.ValidateJWT` (internal/middleware/response.go lines 79-96):
`jwt.ParseWithClaims` verifies the HS256 signature against `jwtSecret` and the
registered time claims at the current instant `now`: the token is invalid when
`now` is not before `expiresAt` or is before `notBefore` (jwt/v5 default
validation with zero leeway). On success the parsed claims are returned. -/
def ValidateJWT (tok : SignedToken) (now : Time) : Except String Claims :=
  if tok.sig ≠ signHS256 jwtSecret tok.claims then
    Except.error "signature is invalid"
  else if tok.claims.registered.expiresAt ≤ now then
    Except.error "token is expired"
  else if now < tok.claims.registered.notBefore then
    Except.error "token is not valid yet"
  else
    Except.ok tok.claims

/-- C1: validating a freshly issued JWT inside its validity window succeeds,
and the claims carry UserID = Subject = the user id string, the given email,
and expiry exactly 7 days after issuance. -/
theorem generateJWT_validateJWT_roundtrip
    (uid email : String) (now t : Time)
    (h1 : now ≤ t) (h2 : t < now + tokenValidity) :
    ∃ c : Claims,
      ValidateJWT (GenerateJWT uid email now) t = Except.ok c ∧
      c.userID = uid ∧
      c.registered.subject = uid ∧
      c.email = email ∧
      c.registered.issuedAt = now ∧
      c.registered.expiresAt = c.registered.issuedAt + tokenValidity := by
  refine ⟨(GenerateJWT uid email now).claims, ?_, rfl, rfl, rfl, rfl, rfl⟩
  unfold ValidateJWT GenerateJWT
  simp only []
  rw [if_neg, if_neg, if_neg]
  · exact not_lt.mpr h1
  · exact not_le.mpr h2
  · simp

/-- Witness for C1 at a concrete user id, email and times. -/
theorem generateJWT_validateJWT_roundtrip_witness :
    ∃ c : Claims,
      ValidateJWT (GenerateJWT "8a6e0804-2bd0-4672-b79d-d97027f9071a" "a@x.com" 0) 5 =
        Except.ok c ∧
      c.userID = "8a6e0804-2bd0-4672-b79d-d97027f9071a" ∧
      c.registered.subject = "8a6e0804-2bd0-4672-b79d-d97027f9071a" ∧
      c.email = "a@x.com" ∧
      c.registered.issuedAt = 0 ∧
      c.registered.expiresAt = c.registered.issuedAt + tokenValidity :=
  generateJWT_validateJWT_roundtrip "8a6e0804-2bd0-4672-b79d-d97027f9071a" "a@x.com" 0 5
    (by norm_num) (by norm_num [tokenValidity, hourNs])

/-! ## Cookies (Session/Cookie Propagation Bridge) -/

/-- Go `http.SameSite` values. -/
inductive SameSite
  | defaultMode
  | laxMode
  | strictMode
  | noneMode
deriving Repr, DecidableEq

/-- The `http.Cookie` fields populated by this repository. Fields the code
leaves at their Go zero value are written out explicitly. -/
structure Cookie where
  name : String
  value : String
  path : String
  domain : String
  expires : Time
  maxAge : Int
  httpOnly : Bool
  secure : Bool
  sameSite : SameSite
deriving Repr, DecidableEq

/-- The cookie built by `graph.SetAuthCookie` (cookie helper file, lines
48-67), the primary path called from the signup/login resolvers. -/
def setAuthCookieValue (token : String) (expiresAt : Time) : Cookie :=
  { name := "auth_token"
    value := token
    path := "/"
    domain := ""
    expires := expiresAt
    maxAge := 0
    httpOnly := true
    secure := false
    sameSite := SameSite.laxMode }

/-- The cookie built by `setCookieDirectly` (graph/resolver.go lines
322-334), the post-execution fallback path. -/
def setCookieDirectlyValue (token : String) (expiresAt : Time) : Cookie :=
  { name := "auth_token"
    value := token
    path := "/"
    domain := ""
    expires := expiresAt
    maxAge := 0
    httpOnly := true
    secure := false
    sameSite := SameSite.laxMode }

/-- Expiry computed inside `ResponseWriterExtension.InterceptResponse`
(graph/resolver.go lines 304, 312): `time.Now().Add(7 * 24 * time.Hour)`. -/
def interceptResponseExpiry (now : Time) : Time := now + 7 * 24 * hourNs

/-- C2 counterexample: both cookie-setting paths hardcode `Secure: false`
with no production switch anywhere in the code, so the claimed in-production
Secure attribute is never set on either path. -/
theorem authCookie_secure_never_set :
    (setAuthCookieValue "tok" 0).secure = false ∧
    (setCookieDirectlyValue "tok" 0).secure = false :=
  ⟨rfl, rfl⟩

/-- C2 amended: at the same logical instant, the primary path (given the
token expiry from `GetTokenExpiry`) and the fallback path set identical
cookies: name auth_token, path /, HttpOnly, SameSite=Lax, expiry equal to
the issued token's 7-day expiry — and Secure is always false, in every
deployment. -/
theorem authCookie_paths_identical (token uid email : String) (now : Time) :
    setAuthCookieValue token (GetTokenExpiry now) =
      setCookieDirectlyValue token (interceptResponseExpiry now) ∧
    (setAuthCookieValue token (GetTokenExpiry now)).name = "auth_token" ∧
    (setAuthCookieValue token (GetTokenExpiry now)).path = "/" ∧
    (setAuthCookieValue token (GetTokenExpiry now)).httpOnly = true ∧
    (setAuthCookieValue token (GetTokenExpiry now)).sameSite = SameSite.laxMode ∧
    (setAuthCookieValue token (GetTokenExpiry now)).secure = false ∧
    (setAuthCookieValue token (GetTokenExpiry now)).expires =
      (GenerateJWT uid email now).claims.registered.expiresAt :=
  ⟨rfl, rfl, rfl, rfl, rfl, rfl, rfl⟩

/-! ## The relational store (database package), users and sessions -/

/-- `database.User` (user store file). `sql.NullString` / `sql.NullInt64` /
`sql.NullTime` columns are `Option`; uuid columns are canonical strings. -/
structure DBUser where
  id : String
  email : String
  passwordHash : String
  firstName : Option String
  lastName : Option String
  emailVerified : Bool
  googleID : Option String
  githubID : Option String
  rating : Int
  peakRating : Int
  currentRank : String
  rankTier : String
  rankSubdivision : Int
  globalRank : Option Int
  totalMatches : Int
  wins : Int
  losses : Int
  lastRatingUpdate : Option Time
  lastActivity : Option Time
  demotionProtectionUntil : Option Time
  ratingDecayAppliedAt : Option Time
  createdAt : Time
  updatedAt : Time
deriving Repr, DecidableEq

/-- `database.Session` (session store file). -/
structure Session where
  id : String
  userID : String
  token : SignedToken
  expiresAt : Time
  createdAt : Time
deriving Repr, DecidableEq

/-- The backing relational store: the users table and the sessions table. -/
structure Store where
  users : List DBUser
  sessions : List Session
deriving Repr, DecidableEq

/-- `database.GetUserByEmail`: `SELECT ... WHERE email = $1`, first row. -/
def getUserByEmail (users : List DBUser) (email : String) : Option DBUser :=
  users.find? (fun u => u.email = email)

/-- `database.GetUserByID`: `SELECT ... WHERE id = $1`, first row. -/
def getUserByID (users : List DBUser) (id : String) : Option DBUser :=
  users.find? (fun u => u.id = id)

/-- `database.GetUserByGoogleID`: `SELECT ... WHERE google_id = $1`; SQL
equality on a NULL column never matches, hence `some gid`. -/
def getUserByGoogleID (users : List DBUser) (gid : String) : Option DBUser :=
  users.find? (fun u => u.googleID = some gid)

/-- `database.GetUserByGithubID`: `SELECT ... WHERE github_id = $1`. -/
def getUserByGithubID (users : List DBUser) (gid : String) : Option DBUser :=
  users.find? (fun u => u.githubID = some gid)

/-- `database.CreateUser`: hashes the password (bcrypt, abstracted as the
caller-supplied `hash`), inserts a row with email_verified=false, no
provider ids, rating 0, peak 0, rank "Bronze 1", tier "Bronze",
subdivision 1, zero matches/wins/losses, and returns it. The generated
`uuid.New()` is the caller-supplied `newId`. -/
def CreateUser (hash : String → String) (st : Store)
    (email password firstName lastName : String) (newId : String) (now : Time) :
    DBUser × Store :=
  let user : DBUser :=
    { id := newId
      email := email
      passwordHash := hash password
      firstName := if firstName = "" then none else some firstName
      lastName := if lastName = "" then none else some lastName
      emailVerified := false
      googleID := none
      githubID := none
      rating := 0
      peakRating := 0
      currentRank := "Bronze 1"
      rankTier := "Bronze"
      rankSubdivision := 1
      globalRank := none
      totalMatches := 0
      wins := 0
      losses := 0
      lastRatingUpdate := none
      lastActivity := some now
      demotionProtectionUntil := none
      ratingDecayAppliedAt := none
      createdAt := now
      updatedAt := now }
  (user, { st with users := st.users ++ [user] })

/-- `database.CreateSession`: inserts a session row binding the token to the
user with the given expiry; `uuid.New()` is the caller-supplied `newId`. -/
def CreateSession (st : Store) (userID : String) (token : SignedToken)
    (expiresAt : Time) (newId : String) (now : Time) : Session × Store :=
  let s : Session :=
    { id := newId, userID := userID, token := token,
      expiresAt := expiresAt, createdAt := now }
  (s, { st with sessions := st.sessions ++ [s] })

/-- An injective rendering of an instant, standing for
`time.Time.Format(time.RFC3339)`. -/
def formatRFC3339 (t : Time) : String := toString t

/-- `model.User` as populated by `dbUserToModel`. -/
structure ModelUser where
  id : String
  email : String
  emailVerified : Bool
  firstName : Option String
  lastName : Option String
  createdAt : String
  updatedAt : String
deriving Repr, DecidableEq

/-- `dbUserToModel` (graph/resolver.go lines 192-209): copies id, email,
emailVerified and the optional names, formatting the timestamps. -/
def dbUserToModel (u : DBUser) : ModelUser :=
  { id := u.id
    email := u.email
    emailVerified := u.emailVerified
    firstName := u.firstName
    lastName := u.lastName
    createdAt := formatRFC3339 u.createdAt
    updatedAt := formatRFC3339 u.updatedAt }

/-- `model.AuthPayload`: user, token and formatted expiry. -/
structure AuthPayload where
  user : ModelUser
  token : SignedToken
  expiresAt : String
deriving Repr, DecidableEq

/-- `Resolver.Signup` (graph/resolver.go lines 89-136; the controller copy in
the app/controllers file is line-for-line the same logic): conflict check by
prior email lookup, then create user, issue JWT, persist session data and
return the payload. Cookie propagation is the separate bridge modelled
above; store errors other than no-rows cannot arise in the pure store. -/
def Signup (hash : String → String) (st : Store) (email password : String)
    (firstName lastName : Option String) (newUserId newSessionId : String)
    (now : Time) : Except String AuthPayload × Store :=
  match getUserByEmail st.users email with
  | some _ => (Except.error "user with this email already exists", st)
  | none =>
    let firstNameStr := firstName.getD ""
    let lastNameStr := lastName.getD ""
    let res := CreateUser hash st email password firstNameStr lastNameStr newUserId now
    let dbUser := res.1
    let jwtToken := GenerateJWT dbUser.id dbUser.email now
    let expiresAt := GetTokenExpiry now
    let res2 := CreateSession res.2 dbUser.id jwtToken expiresAt newSessionId now
    (Except.ok
      { user := dbUserToModel dbUser
        token := jwtToken
        expiresAt := formatRFC3339 res2.1.expiresAt }, res2.2)

/-- `Resolver.Login` (graph/resolver.go lines 138-175; the controller copy is
identical): email lookup, bcrypt verification (`database.VerifyPassword`,
abstracted as `verify`), then the same issue/persist/return path as signup. -/
def Login (verify : String → String → Bool) (st : Store)
    (email password : String) (newSessionId : String) (now : Time) :
    Except String AuthPayload × Store :=
  match getUserByEmail st.users email with
  | none => (Except.error "invalid email or password", st)
  | some dbUser =>
    if ¬ verify dbUser.passwordHash password then
      (Except.error "invalid email or password", st)
    else
      let jwtToken := GenerateJWT dbUser.id dbUser.email now
      let expiresAt := GetTokenExpiry now
      let res2 := CreateSession st dbUser.id jwtToken expiresAt newSessionId now
      (Except.ok
        { user := dbUserToModel dbUser
          token := jwtToken
          expiresAt := formatRFC3339 res2.1.expiresAt }, res2.2)

/-- C3: login with an unknown email and login with a known email but a
password that fails verification return the very same value — the identical
error string with the store unchanged — so the two failures are
indistinguishable. -/
theorem login_failures_indistinguishable
    (verify : String → String → Bool) (st : Store)
    (email password sid : String) (now : Time) :
    (getUserByEmail st.users email = none →
      Login verify st email password sid now =
        (Except.error "invalid email or password", st)) ∧
    (∀ u, getUserByEmail st.users email = some u →
      verify u.passwordHash password = false →
      Login verify st email password sid now =
        (Except.error "invalid email or password", st)) := by
  constructor
  · intro h
    unfold Login
    rw [h]
  · intro u hu hv
    unfold Login
    rw [hu]
    simp [hv]

/-- Demonstration row used by concrete witnesses: a stored password user. -/
def demoUser : DBUser :=
  { id := "11111111-1111-1111-1111-111111111111"
    email := "a@x.com"
    passwordHash := "bcrypt-hash-of-pw1"
    firstName := none
    lastName := none
    emailVerified := false
    googleID := none
    githubID := none
    rating := 0
    peakRating := 0
    currentRank := "Bronze 1"
    rankTier := "Bronze"
    rankSubdivision := 1
    globalRank := none
    totalMatches := 0
    wins := 0
    losses := 0
    lastRatingUpdate := none
    lastActivity := none
    demotionProtectionUntil := none
    ratingDecayAppliedAt := none
    createdAt := 0
    updatedAt := 0 }

/-- Demonstration store holding exactly `demoUser` and no sessions. -/
def demoStore : Store := { users := [demoUser], sessions := [] }

/-- Witness for C3: on the demonstration store, an unknown email and a wrong
password for the stored email produce the identical failure. -/
theorem login_failures_indistinguishable_witness :
    Login (fun _ _ => false) demoStore "nobody@x.com" "pw" "s1" 0 =
      (Except.error "invalid email or password", demoStore) ∧
    Login (fun _ _ => false) demoStore "a@x.com" "wrong" "s1" 0 =
      (Except.error "invalid email or password", demoStore) := by
  constructor
  · exact (login_failures_indistinguishable (fun _ _ => false) demoStore
      "nobody@x.com" "pw" "s1" 0).1 (by decide)
  · exact (login_failures_indistinguishable (fun _ _ => false) demoStore
      "a@x.com" "wrong" "s1" 0).2 demoUser (by decide) rfl

/-- C6: when a user with the given email already exists, signup returns the
conflict error and the store — users and sessions alike — is returned
unchanged. -/
theorem signup_conflict_leaves_store_unchanged
    (hash : String → String) (st : Store) (email password : String)
    (fn ln : Option String) (uid sid : String) (now : Time) (u : DBUser)
    (h : getUserByEmail st.users email = some u) :
    Signup hash st email password fn ln uid sid now =
      (Except.error "user with this email already exists", st) := by
  unfold Signup
  rw [h]

/-- Witness for C6: signup for the already-registered demonstration email
fails with the conflict error and leaves the demonstration store as it was. -/
theorem signup_conflict_leaves_store_unchanged_witness :
    Signup (fun p => p) demoStore "a@x.com" "pw2" none none "u2" "s2" 0 =
      (Except.error "user with this email already exists", demoStore) :=
  signup_conflict_leaves_store_unchanged (fun p => p) demoStore "a@x.com" "pw2"
    none none "u2" "s2" 0 demoUser (by decide)

/-! ## OAuth federation (oauth handler package) -/

/-- `database.UpdateUserGoogleID`: `UPDATE users SET google_id=$1,
updated_at=$2 WHERE id=$3`. -/
def updateUserGoogleID (st : Store) (userID googleID : String) (now : Time) : Store :=
  { st with
    users := st.users.map (fun u =>
      if u.id = userID then { u with googleID := some googleID, updatedAt := now }
      else u) }

/-- `database.UpdateUserGithubID`: `UPDATE users SET github_id=$1,
updated_at=$2 WHERE id=$3`. -/
def updateUserGithubID (st : Store) (userID githubID : String) (now : Time) : Store :=
  { st with
    users := st.users.map (fun u =>
      if u.id = userID then { u with githubID := some githubID, updatedAt := now }
      else u) }

/-- `Handler.createOrGetOAuthUser` (oauth handler, Google variant): email
lookup first, backfilling the Google id only when NULL or empty; else Google
id lookup; else insert a fresh row with empty password hash, verified email,
the Google id, and the default progression fields. -/
def createOrGetOAuthUser (st : Store)
    (email firstName lastName googleID : String) (newId : String) (now : Time) :
    DBUser × Store :=
  match getUserByEmail st.users email with
  | some user =>
    if user.googleID = none ∨ user.googleID = some "" then
      ({ user with googleID := some googleID },
       updateUserGoogleID st user.id googleID now)
    else
      (user, st)
  | none =>
    match getUserByGoogleID st.users googleID with
    | some user => (user, st)
    | none =>
      let newUser : DBUser :=
        { id := newId
          email := email
          passwordHash := ""
          firstName := if firstName = "" then none else some firstName
          lastName := if lastName = "" then none else some lastName
          emailVerified := true
          googleID := some googleID
          githubID := none
          rating := 0
          peakRating := 0
          currentRank := "Bronze 1"
          rankTier := "Bronze"
          rankSubdivision := 1
          globalRank := none
          totalMatches := 0
          wins := 0
          losses := 0
          lastRatingUpdate := none
          lastActivity := some now
          demotionProtectionUntil := none
          ratingDecayAppliedAt := none
          createdAt := now
          updatedAt := now }
      (newUser, { st with users := st.users ++ [newUser] })

/-- `splitName` (oauth handler): `strings.Fields`, first token, remaining
tokens rejoined with single spaces. -/
def splitName (name : String) : List String :=
  let parts := (name.split Char.isWhitespace).filter (fun s => s ≠ "")
  match parts with
  | [] => [""]
  | [p] => [p]
  | p :: rest => [p, String.intercalate " " rest]

/-- `Handler.createOrGetGitHubUser` (oauth handler, GitHub variant): formats
the numeric GitHub id, splits the display name (falling back to the login
handle), then the same email-first / provider-id / create order. -/
def createOrGetGitHubUser (st : Store)
    (email name login : String) (githubID : Int) (newId : String) (now : Time) :
    DBUser × Store :=
  let githubIDStr := toString githubID
  let names : String × String :=
    if name ≠ "" then
      let parts := splitName name
      (parts.headD "", if parts.length > 1 then parts.getD 1 "" else "")
    else
      (login, "")
  let firstName := names.1
  let lastName := names.2
  match getUserByEmail st.users email with
  | some user =>
    if user.githubID = none ∨ user.githubID = some "" then
      ({ user with githubID := some githubIDStr },
       updateUserGithubID st user.id githubIDStr now)
    else
      (user, st)
  | none =>
    match getUserByGithubID st.users githubIDStr with
    | some user => (user, st)
    | none =>
      let newUser : DBUser :=
        { id := newId
          email := email
          passwordHash := ""
          firstName := if firstName = "" then none else some firstName
          lastName := if lastName = "" then none else some lastName
          emailVerified := true
          googleID := none
          githubID := some githubIDStr
          rating := 0
          peakRating := 0
          currentRank := "Bronze 1"
          rankTier := "Bronze"
          rankSubdivision := 1
          globalRank := none
          totalMatches := 0
          wins := 0
          losses := 0
          lastRatingUpdate := none
          lastActivity := some now
          demotionProtectionUntil := none
          ratingDecayAppliedAt := none
          createdAt := now
          updatedAt := now }
      (newUser, { st with users := st.users ++ [newUser] })

/-- C4: OAuth account linkage checks, in this fixed order: email match
(reusing the user and backfilling the provider id only when unset/empty),
then provider-id match (reused unchanged), then creation of a fresh user
with empty password hash, emailVerified=true, the provider id set, and the
default progression fields — for both the Google and the GitHub variant. -/
theorem oauth_account_linkage_order
    (st : Store) (email firstName lastName gid ghname login : String)
    (ghid : Int) (newId : String) (now : Time) :
    (∀ u, getUserByEmail st.users email = some u →
      (((u.googleID = none ∨ u.googleID = some "") →
         createOrGetOAuthUser st email firstName lastName gid newId now =
           ({ u with googleID := some gid }, updateUserGoogleID st u.id gid now)) ∧
       (∀ g, u.googleID = some g → g ≠ "" →
         createOrGetOAuthUser st email firstName lastName gid newId now = (u, st)))) ∧
    (getUserByEmail st.users email = none →
      ∀ u, getUserByGoogleID st.users gid = some u →
        createOrGetOAuthUser st email firstName lastName gid newId now = (u, st)) ∧
    (getUserByEmail st.users email = none →
      getUserByGoogleID st.users gid = none →
      ((createOrGetOAuthUser st email firstName lastName gid newId now).1.passwordHash = "" ∧
       (createOrGetOAuthUser st email firstName lastName gid newId now).1.emailVerified = true ∧
       (createOrGetOAuthUser st email firstName lastName gid newId now).1.googleID = some gid ∧
       (createOrGetOAuthUser st email firstName lastName gid newId now).1.rating = 0 ∧
       (createOrGetOAuthUser st email firstName lastName gid newId now).1.rankTier = "Bronze" ∧
       (createOrGetOAuthUser st email firstName lastName gid newId now).1.rankSubdivision = 1 ∧
       (createOrGetOAuthUser st email firstName lastName gid newId now).1.totalMatches = 0 ∧
       (createOrGetOAuthUser st email firstName lastName gid newId now).1.wins = 0 ∧
       (createOrGetOAuthUser st email firstName lastName gid newId now).1.losses = 0 ∧
       (createOrGetOAuthUser st email firstName lastName gid newId now).2.users =
         st.users ++ [(createOrGetOAuthUser st email firstName lastName gid newId now).1])) ∧
    (∀ u, getUserByEmail st.users email = some u →
      (((u.githubID = none ∨ u.githubID = some "") →
         createOrGetGitHubUser st email ghname login ghid newId now =
           ({ u with githubID := some (toString ghid) },
            updateUserGithubID st u.id (toString ghid) now)) ∧
       (∀ g, u.githubID = some g → g ≠ "" →
         createOrGetGitHubUser st email ghname login ghid newId now = (u, st)))) ∧
    (getUserByEmail st.users email = none →
      ∀ u, getUserByGithubID st.users (toString ghid) = some u →
        createOrGetGitHubUser st email ghname login ghid newId now = (u, st)) ∧
    (getUserByEmail st.users email = none →
      getUserByGithubID st.users (toString ghid) = none →
      ((createOrGetGitHubUser st email ghname login ghid newId now).1.passwordHash = "" ∧
       (createOrGetGitHubUser st email ghname login ghid newId now).1.emailVerified = true ∧
       (createOrGetGitHubUser st email ghname login ghid newId now).1.githubID =
         some (toString ghid) ∧
       (createOrGetGitHubUser st email ghname login ghid newId now).1.rating = 0 ∧
       (createOrGetGitHubUser st email ghname login ghid newId now).1.rankTier = "Bronze" ∧
       (createOrGetGitHubUser st email ghname login ghid newId now).1.rankSubdivision = 1 ∧
       (createOrGetGitHubUser st email ghname login ghid newId now).1.totalMatches = 0 ∧
       (createOrGetGitHubUser st email ghname login ghid newId now).1.wins = 0 ∧
       (createOrGetGitHubUser st email ghname login ghid newId now).1.losses = 0 ∧
       (createOrGetGitHubUser st email ghname login ghid newId now).2.users =
         st.users ++ [(createOrGetGitHubUser st email ghname login ghid newId now).1])) := by
  refine ⟨?_, ?_, ?_, ?_, ?_, ?_⟩
  · intro u hu
    constructor
    · intro hset
      simp only [createOrGetOAuthUser, hu, if_pos hset]
    · intro g hg hne
      have hc : ¬(u.googleID = none ∨ u.googleID = some "") := by
        simp [hg, hne]
      simp only [createOrGetOAuthUser, hu, if_neg hc]
  · intro h1 u h2
    simp only [createOrGetOAuthUser, h1, h2]
  · intro h1 h2
    simp [createOrGetOAuthUser, h1, h2]
  · intro u hu
    constructor
    · intro hset
      simp only [createOrGetGitHubUser, hu, if_pos hset]
    · intro g hg hne
      have hc : ¬(u.githubID = none ∨ u.githubID = some "") := by
        simp [hg, hne]
      simp only [createOrGetGitHubUser, hu, if_neg hc]
  · intro h1 u h2
    simp only [createOrGetGitHubUser, h1, h2]
  · intro h1 h2
    simp [createOrGetGitHubUser, h1, h2]

/-- Witness for C4: on the empty store both variants create a fresh user
with the default fields, and on the demonstration store the Google id of the
stored (password) user is backfilled. -/
theorem oauth_account_linkage_order_witness :
    ((createOrGetOAuthUser { users := [], sessions := [] }
        "g@x.com" "G" "H" "gid-1" "u9" 0).1.passwordHash = "" ∧
     (createOrGetOAuthUser { users := [], sessions := [] }
        "g@x.com" "G" "H" "gid-1" "u9" 0).1.emailVerified = true ∧
     (createOrGetOAuthUser { users := [], sessions := [] }
        "g@x.com" "G" "H" "gid-1" "u9" 0).1.googleID = some "gid-1" ∧
     (createOrGetOAuthUser { users := [], sessions := [] }
        "g@x.com" "G" "H" "gid-1" "u9" 0).1.rating = 0 ∧
     (createOrGetOAuthUser { users := [], sessions := [] }
        "g@x.com" "G" "H" "gid-1" "u9" 0).1.rankTier = "Bronze" ∧
     (createOrGetOAuthUser { users := [], sessions := [] }
        "g@x.com" "G" "H" "gid-1" "u9" 0).1.rankSubdivision = 1 ∧
     (createOrGetOAuthUser { users := [], sessions := [] }
        "g@x.com" "G" "H" "gid-1" "u9" 0).1.totalMatches = 0 ∧
     (createOrGetOAuthUser { users := [], sessions := [] }
        "g@x.com" "G" "H" "gid-1" "u9" 0).1.wins = 0 ∧
     (createOrGetOAuthUser { users := [], sessions := [] }
        "g@x.com" "G" "H" "gid-1" "u9" 0).1.losses = 0 ∧
     (createOrGetOAuthUser { users := [], sessions := [] }
        "g@x.com" "G" "H" "gid-1" "u9" 0).2.users =
       [] ++ [(createOrGetOAuthUser { users := [], sessions := [] }
        "g@x.com" "G" "H" "gid-1" "u9" 0).1]) ∧
    createOrGetOAuthUser demoStore "a@x.com" "G" "H" "gid-1" "u9" 0 =
      ({ demoUser with googleID := some "gid-1" },
       updateUserGoogleID demoStore demoUser.id "gid-1" 0) := by
  constructor
  · exact (oauth_account_linkage_order { users := [], sessions := [] }
      "g@x.com" "G" "H" "gid-1" "n" "l" 1 "u9" 0).2.2.1 rfl rfl
  · exact ((oauth_account_linkage_order demoStore
      "a@x.com" "G" "H" "gid-1" "n" "l" 1 "u9" 0).1 demoUser (by decide)).1
      (Or.inl rfl)

/-! ## OAuth callback handlers -/

/-- The query parameters and inbound cookies of an HTTP request. -/
structure HTTPRequest where
  queryParams : List (String × String)
  cookies : List (String × String)
deriving Repr, DecidableEq

/-- `r.URL.Query().Get(k)`: first value, or the empty string when absent. -/
def getQueryParam (r : HTTPRequest) (k : String) : String :=
  ((r.queryParams.find? (fun p => p.1 = k)).map Prod.snd).getD ""

/-- `r.Cookie(k)`: the cookie value, or an error (here `none`) when absent. -/
def requestCookie (r : HTTPRequest) (k : String) : Option String :=
  (r.cookies.find? (fun p => p.1 = k)).map Prod.snd

/-- Google profile fields the callback reads
(`userInfo.Email/GivenName/FamilyName/Id`). -/
structure GoogleUserInfo where
  email : String
  givenName : String
  familyName : String
  id : String
deriving Repr, DecidableEq

/-- `GitHubUserInfo` (oauth handler), after the email-selection step. -/
structure GitHubUserInfo where
  id : Int
  login : String
  name : String
  email : String
deriving Repr, DecidableEq

/-- How a callback ends: an `http.Error` with status, or a redirect. -/
inductive CallbackResult where
  | httpError (msg : String) (status : Nat)
  | redirect (uri : String)
deriving Repr, DecidableEq

/-- What the callback writes to the HTTP response: its result plus the
cookies it set on the way. -/
structure CallbackResponse where
  result : CallbackResult
  setCookies : List Cookie
deriving Repr, DecidableEq

/-- The `oauth_state`-clearing cookie written after state validation
(MaxAge -1; other fields at their Go zero values). -/
def clearedStateCookie : Cookie :=
  { name := "oauth_state", value := "", path := "/", domain := "",
    expires := 0, maxAge := -1, httpOnly := true, secure := false,
    sameSite := SameSite.defaultMode }

/-- The `oauth_redirect_uri`-clearing cookie written after state validation. -/
def clearedRedirectCookie : Cookie :=
  { name := "oauth_redirect_uri", value := "", path := "/", domain := "",
    expires := 0, maxAge := -1, httpOnly := true, secure := false,
    sameSite := SameSite.defaultMode }

/-- An injective rendering of a signed token, standing for its compact JWT
serialization (the string stored in sessions and cookies). -/
def serializeToken (t : SignedToken) : String := toString (repr t)

/-- `Handler.GoogleCallback` (oauth handler, lines 75-187). External
collaborators are parameters: `config` is `GetGoogleOAuthConfig()` (`none`
when unconfigured), `exchange` the code-for-token exchange, `userinfo` the
profile fetch; generated uuids are `newUserId`/`newSessionId`. The CSRF
guard runs first: missing state cookie or a mismatched state parameter
aborts with 400 before anything else happens. -/
def googleCallback (config : Option Unit)
    (exchange : String → Option String)
    (userinfo : String → Option GoogleUserInfo)
    (st : Store) (r : HTTPRequest) (newUserId newSessionId : String)
    (now : Time) : CallbackResponse × Store :=
  match requestCookie r "oauth_state" with
  | none =>
    ({ result := CallbackResult.httpError "State cookie not found" 400,
       setCookies := [] }, st)
  | some stateCookie =>
    if getQueryParam r "state" ≠ stateCookie then
      ({ result := CallbackResult.httpError "Invalid state parameter" 400,
         setCookies := [] }, st)
    else
      let redirectURI := (requestCookie r "oauth_redirect_uri").getD "http://localhost:3000"
      let cleared := [clearedStateCookie, clearedRedirectCookie]
      let code := getQueryParam r "code"
      if code = "" then
        ({ result := CallbackResult.httpError "Code not provided" 400,
           setCookies := cleared }, st)
      else
        match config with
        | none =>
          ({ result := CallbackResult.httpError "OAuth not configured" 500,
             setCookies := cleared }, st)
        | some _ =>
          match exchange code with
          | none =>
            ({ result := CallbackResult.httpError "Failed to exchange code for token" 500,
               setCookies := cleared }, st)
          | some accessToken =>
            match userinfo accessToken with
            | none =>
              ({ result := CallbackResult.httpError "Failed to get user info" 500,
                 setCookies := cleared }, st)
            | some info =>
              let res := createOrGetOAuthUser st info.email info.givenName
                info.familyName info.id newUserId now
              let dbUser := res.1
              let jwtToken := GenerateJWT dbUser.id dbUser.email now
              let expiresAt := GetTokenExpiry now
              let res2 := CreateSession res.2 dbUser.id jwtToken expiresAt newSessionId now
              ({ result := CallbackResult.redirect redirectURI,
                 setCookies := cleared ++
                   [{ name := "auth_token", value := serializeToken jwtToken,
                      path := "/", domain := "", expires := expiresAt,
                      maxAge := 0, httpOnly := true, secure := false,
                      sameSite := SameSite.laxMode }] }, res2.2)

/-- `Handler.GitHubCallback` (oauth handler, lines 337-441): same structure
as the Google callback, with the GitHub profile fetch (including its email
selection, folded into the `userinfo` oracle) and the GitHub linkage. -/
def gitHubCallback (config : Option Unit)
    (exchange : String → Option String)
    (userinfo : String → Option GitHubUserInfo)
    (st : Store) (r : HTTPRequest) (newUserId newSessionId : String)
    (now : Time) : CallbackResponse × Store :=
  match requestCookie r "oauth_state" with
  | none =>
    ({ result := CallbackResult.httpError "State cookie not found" 400,
       setCookies := [] }, st)
  | some stateCookie =>
    if getQueryParam r "state" ≠ stateCookie then
      ({ result := CallbackResult.httpError "Invalid state parameter" 400,
         setCookies := [] }, st)
    else
      let redirectURI := (requestCookie r "oauth_redirect_uri").getD "http://localhost:3000"
      let cleared := [clearedStateCookie, clearedRedirectCookie]
      let code := getQueryParam r "code"
      if code = "" then
        ({ result := CallbackResult.httpError "Code not provided" 400,
           setCookies := cleared }, st)
      else
        match config with
        | none =>
          ({ result := CallbackResult.httpError "OAuth not configured" 500,
             setCookies := cleared }, st)
        | some _ =>
          match exchange code with
          | none =>
            ({ result := CallbackResult.httpError "Failed to exchange code for token" 500,
               setCookies := cleared }, st)
          | some accessToken =>
            match userinfo accessToken with
            | none =>
              ({ result := CallbackResult.httpError "Failed to get user info" 500,
                 setCookies := cleared }, st)
            | some info =>
              let res := createOrGetGitHubUser st info.email info.name
                info.login info.id newUserId now
              let dbUser := res.1
              let jwtToken := GenerateJWT dbUser.id dbUser.email now
              let expiresAt := GetTokenExpiry now
              let res2 := CreateSession res.2 dbUser.id jwtToken expiresAt newSessionId now
              ({ result := CallbackResult.redirect redirectURI,
                 setCookies := cleared ++
                   [{ name := "auth_token", value := serializeToken jwtToken,
                      path := "/", domain := "", expires := expiresAt,
                      maxAge := 0, httpOnly := true, secure := false,
                      sameSite := SameSite.laxMode }] }, res2.2)

/-- C5: on both callbacks, a missing state cookie or a state parameter that
does not equal the cookie value aborts with a 400 error, returning the store
untouched — no user and no session is created — for every external oracle. -/
theorem oauth_callback_csrf_mismatch_aborts
    (config : Option Unit) (exchange : String → Option String)
    (ginfo : String → Option GoogleUserInfo)
    (ghinfo : String → Option GitHubUserInfo)
    (st : Store) (r : HTTPRequest) (uid sid : String) (now : Time) :
    (requestCookie r "oauth_state" = none →
      googleCallback config exchange ginfo st r uid sid now =
        ({ result := CallbackResult.httpError "State cookie not found" 400,
           setCookies := [] }, st) ∧
      gitHubCallback config exchange ghinfo st r uid sid now =
        ({ result := CallbackResult.httpError "State cookie not found" 400,
           setCookies := [] }, st)) ∧
    (∀ v, requestCookie r "oauth_state" = some v →
      getQueryParam r "state" ≠ v →
      googleCallback config exchange ginfo st r uid sid now =
        ({ result := CallbackResult.httpError "Invalid state parameter" 400,
           setCookies := [] }, st) ∧
      gitHubCallback config exchange ghinfo st r uid sid now =
        ({ result := CallbackResult.httpError "Invalid state parameter" 400,
           setCookies := [] }, st)) := by
  constructor
  · intro h
    constructor
    · simp only [googleCallback, h]
    · simp only [gitHubCallback, h]
  · intro v hv hne
    constructor
    · simp only [googleCallback, hv, if_pos hne]
    · simp only [gitHubCallback, hv, if_pos hne]

/-- Witness for C5: a concrete request whose state parameter "evil" differs
from the stored state cookie "good" is rejected by both callbacks with the
empty store unchanged. -/
theorem oauth_callback_csrf_mismatch_aborts_witness :
    googleCallback none (fun _ => none) (fun _ => none)
        { users := [], sessions := [] }
        { queryParams := [("state", "evil"), ("code", "c")],
          cookies := [("oauth_state", "good")] } "u1" "s1" 0 =
      ({ result := CallbackResult.httpError "Invalid state parameter" 400,
         setCookies := [] }, { users := [], sessions := [] }) ∧
    gitHubCallback none (fun _ => none) (fun _ => none)
        { users := [], sessions := [] }
        { queryParams := [("state", "evil"), ("code", "c")],
          cookies := [("oauth_state", "good")] } "u1" "s1" 0 =
      ({ result := CallbackResult.httpError "Invalid state parameter" 400,
         setCookies := [] }, { users := [], sessions := [] }) :=
  (oauth_callback_csrf_mismatch_aborts none (fun _ => none) (fun _ => none)
      (fun _ => none) { users := [], sessions := [] }
      { queryParams := [("state", "evil"), ("code", "c")],
        cookies := [("oauth_state", "good")] } "u1" "s1" 0).2
    "good" (by decide) (by decide)

/-! ## GetQuestions (controller, lines 84-172) -/

/-- `database.Question` row as scanned. -/
structure DBQuestion where
  id : Int
  title : String
  slug : String
  description : String
  difficulty : String
  topics : List String
  testCaseCount : Int
deriving Repr, DecidableEq

/-- `model.Question` as built in the scan loop (id via `fmt.Sprintf`). -/
structure ModelQuestion where
  id : String
  title : String
  slug : String
  description : String
  difficulty : String
  topics : List String
  testCaseCount : Int
deriving Repr, DecidableEq

/-- The per-row conversion in the `rows.Next()` loop. -/
def questionToModel (q : DBQuestion) : ModelQuestion :=
  { id := toString q.id
    title := q.title
    slug := q.slug
    description := q.description
    difficulty := q.difficulty
    topics := q.topics
    testCaseCount := q.testCaseCount }

/-- `model.GetQuestionsResponse`. -/
structure GetQuestionsResponse where
  questions : List ModelQuestion
  totalCount : Nat
  hasMore : Bool
deriving Repr, DecidableEq

/-- The limit defaulting of `GetQuestions` (controller lines 90-99):
default 25 when absent; a non-positive supplied value is replaced by 25;
values above 100 are capped at 100. -/
def effectiveLimit (l : Option Int) : Int :=
  let limit0 : Int := match l with | some v => v | none => 25
  let limit1 : Int := if limit0 ≤ 0 then 25 else limit0
  if limit1 > 100 then 100 else limit1

/-- The offset defaulting of `GetQuestions` (controller lines 86-89,
100-102): default 0; negative values replaced by 0. -/
def effectiveOffset (o : Option Int) : Int :=
  let offset : Int := match o with | some v => v | none => 0
  if offset < 0 then 0 else offset

/-- Executing the SQL built by `GetQuestionsQueryWithArgs` over the
filtered, sorted result set `rows`: `LIMIT limit OFFSET offset`. -/
def runQuestionsQuery (rows : List DBQuestion) (offset limit : Int) :
    List DBQuestion :=
  (rows.drop offset.toNat).take limit.toNat

/-- `pcdGraphQLControllerImpl.GetQuestions` page assembly: query one row
beyond the page size (`limit+1`), scan, compute hasMore from the overflow,
trim the probe row, and report `TotalCount` as the trimmed page length. -/
def getQuestions (rows : List DBQuestion) (o l : Option Int) :
    GetQuestionsResponse :=
  let offset := effectiveOffset o
  let limit := effectiveLimit l
  let fetched := runQuestionsQuery rows offset (limit + 1)
  let scanned := fetched.map questionToModel
  let hasMore : Bool := decide ((scanned.length : Int) > limit)
  let questions := if hasMore then scanned.take limit.toNat else scanned
  { questions := questions, totalCount := questions.length, hasMore := hasMore }

theorem effectiveLimit_pos (l : Option Int) : 1 ≤ effectiveLimit l := by
  rcases l with _ | v <;> simp only [effectiveLimit] <;> split_ifs <;> omega

theorem effectiveLimit_le_100 (l : Option Int) : effectiveLimit l ≤ 100 := by
  rcases l with _ | v <;> simp only [effectiveLimit] <;> split_ifs <;> omega

/-- C7 counterexample: the claim says a supplied limit is clamped to
[1,100], which at the supplied value 0 would give 1; the code instead
replaces every non-positive supplied limit with the default 25. -/
theorem effectiveLimit_zero_not_clamped_to_one :
    effectiveLimit (some 0) = 25 ∧
    max 1 (min (0 : Int) 100) = 1 ∧
    effectiveLimit (some 0) ≠ max 1 (min (0 : Int) 100) := by
  refine ⟨by decide, by decide, by decide⟩

/-- C7 amended: the effective page size is 25 when the limit argument is
absent OR non-positive, and the supplied limit capped at 100 otherwise (so
it always lies in [1,100]); the effective offset is the supplied offset
clamped to be non-negative, defaulting to 0. -/
theorem effectiveLimit_effectiveOffset_spec (l o : Option Int) :
    1 ≤ effectiveLimit l ∧
    effectiveLimit l ≤ 100 ∧
    effectiveLimit none = 25 ∧
    (∀ v : Int, v ≤ 0 → effectiveLimit (some v) = 25) ∧
    (∀ v : Int, 0 < v → effectiveLimit (some v) = min v 100) ∧
    effectiveOffset o = max 0 (o.getD 0) := by
  refine ⟨effectiveLimit_pos l, effectiveLimit_le_100 l, by decide, ?_, ?_, ?_⟩
  · intro v hv
    simp only [effectiveLimit]
    split_ifs <;> omega
  · intro v hv
    simp only [effectiveLimit]
    split_ifs <;> omega
  · rcases o with _ | v <;> simp only [effectiveOffset, Option.getD] <;>
      split_ifs <;> omega

/-- Witness for C7 (amended): a non-positive supplied limit yields 25, a
positive oversized limit is capped, and a negative offset is clamped to 0. -/
theorem effectiveLimit_effectiveOffset_spec_witness :
    effectiveLimit (some (-3)) = 25 ∧
    effectiveLimit (some 250) = min 250 100 ∧
    effectiveOffset (some (-2)) = max 0 ((some (-2) : Option Int).getD 0) :=
  ⟨(effectiveLimit_effectiveOffset_spec (some (-3)) none).2.2.2.1 (-3) (by norm_num),
   (effectiveLimit_effectiveOffset_spec (some 250) none).2.2.2.2.1 250 (by norm_num),
   (effectiveLimit_effectiveOffset_spec none (some (-2))).2.2.2.2.2⟩

/-- C8: the query asks for one row beyond the page size; when it yields more
rows than the page size, exactly page-size questions are returned with
hasMore=true, otherwise all fetched rows are returned with hasMore=false. -/
theorem getQuestions_hasMore_pagination (rows : List DBQuestion) (o l : Option Int) :
    (((runQuestionsQuery rows (effectiveOffset o) (effectiveLimit l + 1)).length : Int) >
        effectiveLimit l →
      ((getQuestions rows o l).questions.length : Int) = effectiveLimit l ∧
      (getQuestions rows o l).hasMore = true) ∧
    (((runQuestionsQuery rows (effectiveOffset o) (effectiveLimit l + 1)).length : Int) ≤
        effectiveLimit l →
      (getQuestions rows o l).questions =
        (runQuestionsQuery rows (effectiveOffset o) (effectiveLimit l + 1)).map
          questionToModel ∧
      (getQuestions rows o l).hasMore = false) := by
  have hpos := effectiveLimit_pos l
  constructor
  · intro h
    have hb : decide (((runQuestionsQuery rows (effectiveOffset o)
        (effectiveLimit l + 1)).length : Int) > effectiveLimit l) = true :=
      decide_eq_true h
    constructor
    · simp [getQuestions, hb]
      omega
    · simp [getQuestions, hb]
  · intro h
    have hb : decide (((runQuestionsQuery rows (effectiveOffset o)
        (effectiveLimit l + 1)).length : Int) > effectiveLimit l) = false :=
      decide_eq_false (not_lt.mpr h)
    constructor
    · simp [getQuestions, hb]
    · simp [getQuestions, hb]

/-- A concrete question row used by pagination witnesses. -/
def sampleQuestion (n : Int) : DBQuestion :=
  { id := n, title := "t", slug := "s", description := "d",
    difficulty := "Easy", topics := [], testCaseCount := 0 }

/-- k concrete question rows with ids 0..k-1. -/
def sampleRows (k : Nat) : List DBQuestion :=
  (List.range k).map (fun i => sampleQuestion i)

/-- Witness for C8: with limit 10, 11 matching rows give a 10-question page
with hasMore=true, and exactly 10 matching rows give all 10 with
hasMore=false. -/
theorem getQuestions_hasMore_pagination_witness :
    (((getQuestions (sampleRows 11) none (some 10)).questions.length : Int) =
        effectiveLimit (some 10) ∧
      (getQuestions (sampleRows 11) none (some 10)).hasMore = true) ∧
    ((getQuestions (sampleRows 10) none (some 10)).questions =
        (runQuestionsQuery (sampleRows 10) (effectiveOffset none)
          (effectiveLimit (some 10) + 1)).map questionToModel ∧
      (getQuestions (sampleRows 10) none (some 10)).hasMore = false) :=
  ⟨(getQuestions_hasMore_pagination (sampleRows 11) none (some 10)).1 (by decide),
   (getQuestions_hasMore_pagination (sampleRows 10) none (some 10)).2 (by decide)⟩

/-- C9: the TotalCount of every GetQuestions response equals the length of
the returned (trimmed) page; concretely, with 11 matching rows and limit 10
it reports 10, not the 11 rows matching across all pages. -/
theorem getQuestions_totalCount_is_page_length (rows : List DBQuestion)
    (o l : Option Int) :
    (getQuestions rows o l).totalCount = (getQuestions rows o l).questions.length ∧
    (getQuestions (sampleRows 11) none (some 10)).totalCount = 10 ∧
    (sampleRows 11).length = 11 ∧
    (getQuestions (sampleRows 11) none (some 10)).totalCount ≠ (sampleRows 11).length := by
  refine ⟨rfl, by decide, by decide, by decide⟩

/-! ## User(id) query (controller lines 223-238 / graph/resolver.go 40-55) -/

/-- Hexadecimal digit test for uuid characters. -/
def isHexDigit (c : Char) : Bool :=
  c.isDigit || (97 ≤ c.toNat && c.toNat ≤ 102) || (65 ≤ c.toNat && c.toNat ≤ 70)

/-- The canonical 8-4-4-4-12 uuid text form. `uuid.Parse` (external library)
also admits urn-prefixed, braced and 32-digit variants; this backend only
ever renders uuids canonically, so the canonical class is the one modelled. -/
def isCanonicalUUID (s : String) : Bool :=
  let cs := s.data
  decide (cs.length = 36) &&
  (List.range 36).all (fun i =>
    let c := cs.getD i ' '
    if i = 8 ∨ i = 13 ∨ i = 18 ∨ i = 23 then decide (c = '-') else isHexDigit c)

/-- `uuid.Parse` over the canonical class: the parsed uuid's string form is
the input itself. -/
def uuidParse (s : String) : Option String :=
  if isCanonicalUUID s then some s else none

/-- `Resolver.User` / controller `User`: uuid.Parse failure is a
"invalid user ID" error; `sql.ErrNoRows` from the id lookup is converted to
a null user with a nil error; a found row is converted and returned. -/
def userQuery (st : Store) (id : String) : Except String (Option ModelUser) :=
  match uuidParse id with
  | none => Except.error "invalid user ID"
  | some uid =>
    match getUserByID st.users uid with
    | none => Except.ok none
    | some u => Except.ok (some (dbUserToModel u))

/-- C10: the User(id) query distinguishes malformed from unknown ids: a
string that does not parse as a uuid yields an error, while a well-formed
uuid matching no stored user yields a null user with no error. -/
theorem userQuery_malformed_vs_unknown (st : Store) (id : String) :
    (uuidParse id = none → userQuery st id = Except.error "invalid user ID") ∧
    (∀ uid, uuidParse id = some uid → getUserByID st.users uid = none →
      userQuery st id = Except.ok none) := by
  constructor
  · intro h
    simp only [userQuery, h]
  · intro uid h1 h2
    simp only [userQuery, h1, h2]

/-- Witness for C10: "not-a-uuid" errors, while the well-formed nil uuid on
the demonstration store (which has no such user) returns ok-none. -/
theorem userQuery_malformed_vs_unknown_witness :
    userQuery demoStore "not-a-uuid" = Except.error "invalid user ID" ∧
    userQuery demoStore "00000000-0000-0000-0000-000000000000" =
      Except.ok none := by
  constructor
  · exact (userQuery_malformed_vs_unknown demoStore "not-a-uuid").1 (by decide)
  · exact (userQuery_malformed_vs_unknown demoStore
      "00000000-0000-0000-0000-000000000000").2
      "00000000-0000-0000-0000-000000000000" (by decide) (by decide)

end CodeStandoff
